import Mathlib

/-!
Verification of the Contragent-bot core against its specification.

The Python sources are shallowly embedded: every definition below is a
direct translation of a function in the repository (file and line are
named in each doc comment).  JSON dictionaries are rendered as Lean
structures whose fields are exactly the keys the translated code reads;
Python `None`/missing keys become `Option`; Python truthiness tests are
spelled out.  `datetime.now()` becomes an explicit `now` parameter
(milliseconds since the epoch), so every function is pure.
Presentation-only value strings of risk factors (dates, formatted sums)
are not modelled; the factor name and its severity emoji, which are the
only parts any verified property depends on, are.
-/

namespace ContragentBot

/-- Severity emoji of a risk factor: 🟢 / 🟡 / 🔴 in the source. -/
inductive Emoji
  | green
  | yellow
  | red
deriving DecidableEq, Repr

/-- One entry of the factor list built by `analyze_risks`
(`src/risk_analyzer.py`): the `name` and `emoji` keys of the appended
dict.  The human-readable `value` string is presentation only and is
omitted. -/
structure Factor where
  name : String
  emoji : Emoji
deriving DecidableEq, Repr

/-- The `address` key of a company record.  `data.get('address', {})` is
a dict when the key is absent (the `{}` default) or holds a dict; the
code guards with `isinstance(address_data, dict)`, so a present non-dict
value (for example JSON `null`) is a distinct case.  `qc` is
`address['data']['qc']` when `address['data']` is a dict and the key is
present and non-null, otherwise `none`. -/
inductive AddressField
  | absent
  | nondict
  | adict (qc : Option Int)
deriving DecidableEq, Repr

/-- The `capital` key, same dict/non-dict split as the address
(`isinstance(capital, dict)`); `value` is `capital['value']`, where
`none` covers a missing or null value (the code applies
`.get('value', 0) or 0`). -/
inductive CapitalField
  | absent
  | nondict
  | cdict (value : Option Int)
deriving DecidableEq, Repr

/-- One entry of the `managers` list: `fio.surname` and `date`
(millisecond timestamp).  The code evaluates
`m.get('fio', {}).get('surname') in manager_name`, which requires the
surname to be a string, so the embedding restricts to records where it
is. -/
structure ManagerEntry where
  surname : String
  date : Option Int
deriving DecidableEq, Repr

/-- The fields of a DaData company record that `analyze_risks` reads.
`state_status` is `state.status` (`none` when `state` or `status` is
missing; the code then defaults to `'UNKNOWN'`), `registration_date`
and `actuality_date` live under `state`, `invalid` is the truthiness of
the `invalid` key, `management_name` is `management.name` with `none`
for a missing/empty dict and `some ""` for an empty name (both falsy in
the code). -/
structure CompanyData where
  state_status : Option String
  registration_date : Option Int
  actuality_date : Option Int
  invalid : Bool
  address : AddressField
  capital : CapitalField
  management_name : Option String
  managers : List ManagerEntry
deriving DecidableEq, Repr

/-- Milliseconds in one day. -/
def msPerDay : Int := 86400000

/-- `calculate_age_days` (`src/risk_analyzer.py:10`): `0` for a missing
or zero (falsy) timestamp, otherwise the floor number of whole days
between `now` and the timestamp, both in milliseconds
(`(datetime.now() - date).days` floors toward minus infinity). -/
def calculate_age_days (now : Int) : Option Int → Int
  | none => 0
  | some t => if t = 0 then 0 else Int.fdiv (now - t) msPerDay

/-- Python `needle in hay` on strings: substring containment. -/
def strContains (hay needle : String) : Bool :=
  hay.toList.tails.any (fun t => needle.toList.isPrefixOf t)

/-- Python truthiness of an optional integer: `None` and `0` are falsy. -/
def pyTruthyInt : Option Int → Bool
  | none => false
  | some t => t ≠ 0

/-- Rule 1 of `analyze_risks` (`src/risk_analyzer.py:43-52`): the status
factor together with the increments it applies to
(`critical_issues`, `warnings`). -/
def statusRule (d : CompanyData) : Factor × Nat × Nat :=
  let status := d.state_status.getD "UNKNOWN"
  if status = "ACTIVE" then (⟨"Статус", .green⟩, 0, 0)
  else if status = "LIQUIDATING" then (⟨"Статус", .red⟩, 1, 0)
  else (⟨"Статус", .red⟩, 1, 0)

/-- Rule 2 (`src/risk_analyzer.py:54-66`): company age buckets. -/
def ageRule (now : Int) (d : CompanyData) : Factor × Nat × Nat :=
  let age_days := calculate_age_days now d.registration_date
  if age_days < 180 then (⟨"Возраст", .red⟩, 1, 0)
  else if age_days < 365 then (⟨"Возраст", .yellow⟩, 0, 1)
  else (⟨"Возраст", .green⟩, 0, 0)

/-- Rule 3 (`src/risk_analyzer.py:68-74`): the `invalid` flag. -/
def invalidRule (d : CompanyData) : Factor × Nat × Nat :=
  if d.invalid then (⟨"Достоверность", .red⟩, 1, 0)
  else (⟨"Достоверность", .green⟩, 0, 0)

/-- Rule 4 (`src/risk_analyzer.py:76-84`): address verification.  When
the `address` value is present but not a dict the whole block is
skipped and no factor is appended. -/
def addressRule (d : CompanyData) : Option Factor × Nat × Nat :=
  match d.address with
  | .nondict => (none, 0, 0)
  | .absent => (some ⟨"Адрес", .green⟩, 0, 0)
  | .adict none => (some ⟨"Адрес", .green⟩, 0, 0)
  | .adict (some q) =>
    if q ≠ 0 then (some ⟨"Адрес", .yellow⟩, 0, 1)
    else (some ⟨"Адрес", .green⟩, 0, 0)

/-- Rule 5 (`src/risk_analyzer.py:86-94`): registered capital; skipped
entirely when `capital` is present but not a dict. -/
def capitalRule (d : CompanyData) : Option Factor × Nat × Nat :=
  match d.capital with
  | .nondict => (none, 0, 0)
  | .absent =>
    -- `{}.get('value', 0) or 0` is `0`, and `0 < 10000`
    (some ⟨"Уставный капитал", .yellow⟩, 0, 1)
  | .cdict v =>
    let capital_value := v.getD 0
    if capital_value < 10000 then (some ⟨"Уставный капитал", .yellow⟩, 0, 1)
    else (some ⟨"Уставный капитал", .green⟩, 0, 0)

/-- Rule 6 (`src/risk_analyzer.py:96-131`): manager presence and
appointment date; the date comes from the first `managers` entry whose
surname is a substring of the management name, falling back to
`state.actuality_date` when that is falsy. -/
def managerRule (now : Int) (d : CompanyData) : Factor × Nat × Nat :=
  match d.management_name with
  | none => (⟨"Руководитель", .yellow⟩, 0, 1)
  | some name =>
    if name = "" then (⟨"Руководитель", .yellow⟩, 0, 1)
    else
      let fromList : Option Int :=
        match d.managers.find? (fun m => strContains name m.surname) with
        | some m => m.date
        | none => none
      let manager_date := if pyTruthyInt fromList then fromList else d.actuality_date
      if pyTruthyInt manager_date then
        let manager_days := calculate_age_days now manager_date
        if manager_days < 90 then (⟨"Руководитель", .yellow⟩, 0, 1)
        else if manager_days < 365 then (⟨"Руководитель", .green⟩, 0, 0)
        else (⟨"Руководитель", .green⟩, 0, 0)
      else (⟨"Руководитель", .green⟩, 0, 0)

/-- `analyze_risks` (`src/risk_analyzer.py:32-144`): runs the six rules
in order, accumulating the factor list and the `critical_issues` /
`warnings` counters exactly as the source increments them, then derives
the overall emoji and verdict text. -/
def analyze_risks (now : Int) (d : CompanyData) : Emoji × String × List Factor :=
  let s := statusRule d
  let a := ageRule now d
  let v := invalidRule d
  let ad := addressRule d
  let c := capitalRule d
  let m := managerRule now d
  let factors := [s.1, a.1, v.1] ++ ad.1.toList ++ c.1.toList ++ [m.1]
  let critical_issues := s.2.1 + a.2.1 + v.2.1 + ad.2.1 + c.2.1 + m.2.1
  let warnings := s.2.2 + a.2.2 + v.2.2 + ad.2.2 + c.2.2 + m.2.2
  let overall : Emoji × String :=
    if critical_issues > 0 then (.red, "Высокий риск")
    else if warnings ≥ 2 then (.yellow, "Средний риск")
    else (.green, "Низкий риск")
  (overall.1, overall.2, factors)

/-- Number of factors carrying a given emoji. -/
def countEmoji (e : Emoji) (fs : List Factor) : Nat :=
  fs.countP (fun f => f.emoji == e)

lemma countEmoji_nil (e : Emoji) : countEmoji e [] = 0 := rfl

lemma countEmoji_cons (e : Emoji) (f : Factor) (fs : List Factor) :
    countEmoji e (f :: fs) = (if f.emoji == e then 1 else 0) + countEmoji e fs := by
  unfold countEmoji
  rw [List.countP_cons]
  cases h : (f.emoji == e)
  · simp [h]
  · simp [h]
    omega

lemma countEmoji_append (e : Emoji) (xs ys : List Factor) :
    countEmoji e (xs ++ ys) = countEmoji e xs + countEmoji e ys :=
  List.countP_append _ _ _

lemma statusRule_cases (d : CompanyData) :
    statusRule d = (⟨"Статус", .green⟩, 0, 0) ∨ statusRule d = (⟨"Статус", .red⟩, 1, 0) := by
  simp only [statusRule]
  split_ifs <;> simp

lemma ageRule_cases (now : Int) (d : CompanyData) :
    ageRule now d = (⟨"Возраст", .red⟩, 1, 0) ∨ ageRule now d = (⟨"Возраст", .yellow⟩, 0, 1) ∨
      ageRule now d = (⟨"Возраст", .green⟩, 0, 0) := by
  simp only [ageRule]
  split_ifs <;> simp

lemma invalidRule_cases (d : CompanyData) :
    invalidRule d = (⟨"Достоверность", .red⟩, 1, 0) ∨
      invalidRule d = (⟨"Достоверность", .green⟩, 0, 0) := by
  simp only [invalidRule]
  split_ifs <;> simp

lemma addressRule_cases (d : CompanyData) :
    addressRule d = (none, 0, 0) ∨ addressRule d = (some ⟨"Адрес", .green⟩, 0, 0) ∨
      addressRule d = (some ⟨"Адрес", .yellow⟩, 0, 1) := by
  cases h : d.address with
  | absent => simp [addressRule, h]
  | nondict => simp [addressRule, h]
  | adict qc =>
    cases qc with
    | none => simp [addressRule, h]
    | some q =>
      simp only [addressRule, h]
      split_ifs <;> simp

lemma capitalRule_cases (d : CompanyData) :
    capitalRule d = (none, 0, 0) ∨ capitalRule d = (some ⟨"Уставный капитал", .green⟩, 0, 0) ∨
      capitalRule d = (some ⟨"Уставный капитал", .yellow⟩, 0, 1) := by
  cases h : d.capital with
  | absent => simp [capitalRule, h]
  | nondict => simp [capitalRule, h]
  | cdict v =>
    simp only [capitalRule, h]
    split_ifs <;> simp

lemma managerRule_cases (now : Int) (d : CompanyData) :
    managerRule now d = (⟨"Руководитель", .yellow⟩, 0, 1) ∨
      managerRule now d = (⟨"Руководитель", .green⟩, 0, 0) := by
  cases h : d.management_name with
  | none => simp [managerRule, h]
  | some name =>
    simp only [managerRule, h]
    split_ifs <;> simp

lemma statusRule_red (d : CompanyData) :
    (if (statusRule d).1.emoji == Emoji.red then 1 else 0) = (statusRule d).2.1 := by
  rcases statusRule_cases d with h | h <;> rw [h] <;> decide

lemma statusRule_yellow (d : CompanyData) :
    (if (statusRule d).1.emoji == Emoji.yellow then 1 else 0) = (statusRule d).2.2 := by
  rcases statusRule_cases d with h | h <;> rw [h] <;> decide

lemma ageRule_red (now : Int) (d : CompanyData) :
    (if (ageRule now d).1.emoji == Emoji.red then 1 else 0) = (ageRule now d).2.1 := by
  rcases ageRule_cases now d with h | h | h <;> rw [h] <;> decide

lemma ageRule_yellow (now : Int) (d : CompanyData) :
    (if (ageRule now d).1.emoji == Emoji.yellow then 1 else 0) = (ageRule now d).2.2 := by
  rcases ageRule_cases now d with h | h | h <;> rw [h] <;> decide

lemma invalidRule_red (d : CompanyData) :
    (if (invalidRule d).1.emoji == Emoji.red then 1 else 0) = (invalidRule d).2.1 := by
  rcases invalidRule_cases d with h | h <;> rw [h] <;> decide

lemma invalidRule_yellow (d : CompanyData) :
    (if (invalidRule d).1.emoji == Emoji.yellow then 1 else 0) = (invalidRule d).2.2 := by
  rcases invalidRule_cases d with h | h <;> rw [h] <;> decide

lemma addressRule_red (d : CompanyData) :
    countEmoji .red (addressRule d).1.toList = (addressRule d).2.1 := by
  rcases addressRule_cases d with h | h | h <;> rw [h] <;> decide

lemma addressRule_yellow (d : CompanyData) :
    countEmoji .yellow (addressRule d).1.toList = (addressRule d).2.2 := by
  rcases addressRule_cases d with h | h | h <;> rw [h] <;> decide

lemma capitalRule_red (d : CompanyData) :
    countEmoji .red (capitalRule d).1.toList = (capitalRule d).2.1 := by
  rcases capitalRule_cases d with h | h | h <;> rw [h] <;> decide

lemma capitalRule_yellow (d : CompanyData) :
    countEmoji .yellow (capitalRule d).1.toList = (capitalRule d).2.2 := by
  rcases capitalRule_cases d with h | h | h <;> rw [h] <;> decide

lemma managerRule_red (now : Int) (d : CompanyData) :
    (if (managerRule now d).1.emoji == Emoji.red then 1 else 0) = (managerRule now d).2.1 := by
  rcases managerRule_cases now d with h | h <;> rw [h] <;> decide

lemma managerRule_yellow (now : Int) (d : CompanyData) :
    (if (managerRule now d).1.emoji == Emoji.yellow then 1 else 0) = (managerRule now d).2.2 := by
  rcases managerRule_cases now d with h | h <;> rw [h] <;> decide

lemma analyze_risks_factors (now : Int) (d : CompanyData) :
    (analyze_risks now d).2.2 =
      [(statusRule d).1, (ageRule now d).1, (invalidRule d).1] ++
        (addressRule d).1.toList ++ (capitalRule d).1.toList ++ [(managerRule now d).1] := rfl

lemma analyze_risks_red_count (now : Int) (d : CompanyData) :
    countEmoji .red (analyze_risks now d).2.2 =
      (statusRule d).2.1 + (ageRule now d).2.1 + (invalidRule d).2.1 +
        (addressRule d).2.1 + (capitalRule d).2.1 + (managerRule now d).2.1 := by
  rw [analyze_risks_factors]
  rw [countEmoji_append, countEmoji_append, countEmoji_append]
  rw [countEmoji_cons, countEmoji_cons, countEmoji_cons, countEmoji_nil, countEmoji_cons,
    countEmoji_nil]
  rw [statusRule_red, ageRule_red, invalidRule_red, addressRule_red, capitalRule_red,
    managerRule_red]
  omega

lemma analyze_risks_yellow_count (now : Int) (d : CompanyData) :
    countEmoji .yellow (analyze_risks now d).2.2 =
      (statusRule d).2.2 + (ageRule now d).2.2 + (invalidRule d).2.2 +
        (addressRule d).2.2 + (capitalRule d).2.2 + (managerRule now d).2.2 := by
  rw [analyze_risks_factors]
  rw [countEmoji_append, countEmoji_append, countEmoji_append]
  rw [countEmoji_cons, countEmoji_cons, countEmoji_cons, countEmoji_nil, countEmoji_cons,
    countEmoji_nil]
  rw [statusRule_yellow, ageRule_yellow, invalidRule_yellow, addressRule_yellow,
    capitalRule_yellow, managerRule_yellow]
  omega

/-- C1: for every primary record (and every evaluation time), the
verdict emoji and text returned by `analyze_risks` are "high risk"
exactly when at least one factor of the returned list is critical (🔴),
otherwise "medium risk" exactly when at least two factors are warnings
(🟡), and otherwise "low risk". -/
theorem analyze_risks_verdict_thresholds (now : Int) (d : CompanyData) :
    ((analyze_risks now d).1, (analyze_risks now d).2.1) =
      (if 0 < countEmoji .red (analyze_risks now d).2.2 then (Emoji.red, "Высокий риск")
       else if 2 ≤ countEmoji .yellow (analyze_risks now d).2.2 then
         (Emoji.yellow, "Средний риск")
       else (Emoji.green, "Низкий риск")) := by
  rw [analyze_risks_red_count, analyze_risks_yellow_count]
  simp only [analyze_risks]

lemma statusRule_nonactive (d : CompanyData) (h : d.state_status.getD "UNKNOWN" ≠ "ACTIVE") :
    statusRule d = (⟨"Статус", .red⟩, 1, 0) := by
  simp only [statusRule]
  rw [if_neg h]
  split_ifs <;> rfl

/-- C2: for every primary record whose (defaulted) status is not
`ACTIVE` — covering `LIQUIDATING`, terminated and unknown — the status
factor of `analyze_risks` is critical (🔴, first in the list) and the
overall verdict is the high-risk one, whatever the other fields are. -/
theorem analyze_risks_nonactive_high (now : Int) (d : CompanyData)
    (h : d.state_status.getD "UNKNOWN" ≠ "ACTIVE") :
    (analyze_risks now d).1 = Emoji.red ∧ (analyze_risks now d).2.1 = "Высокий риск" ∧
      (analyze_risks now d).2.2.head? = some ⟨"Статус", Emoji.red⟩ := by
  have hs := statusRule_nonactive d h
  have h1 : (statusRule d).2.1 = 1 := by rw [hs]
  have hpos : 0 < (statusRule d).2.1 + (ageRule now d).2.1 + (invalidRule d).2.1 +
      (addressRule d).2.1 + (capitalRule d).2.1 + (managerRule now d).2.1 := by
    omega
  refine ⟨?_, ?_, ?_⟩
  · show (analyze_risks now d).1 = Emoji.red
    simp only [analyze_risks]
    rw [if_pos hpos]
  · show (analyze_risks now d).2.1 = "Высокий риск"
    simp only [analyze_risks]
    rw [if_pos hpos]
  · rw [analyze_risks_factors]
    simp [hs]

/-- Concrete instance for `analyze_risks_nonactive_high`: a company in
liquidation. -/
def dLiq : CompanyData :=
  { state_status := some "LIQUIDATING"
    registration_date := none
    actuality_date := none
    invalid := false
    address := .absent
    capital := .cdict (some 20000)
    management_name := some "Иванов Иван Иванович"
    managers := [] }

/-- Witness for C2 at the concrete record `dLiq`. -/
theorem analyze_risks_nonactive_high_witness :
    dLiq.state_status.getD "UNKNOWN" ≠ "ACTIVE" ∧
      ((analyze_risks 0 dLiq).1 = Emoji.red ∧ (analyze_risks 0 dLiq).2.1 = "Высокий риск" ∧
        (analyze_risks 0 dLiq).2.2.head? = some ⟨"Статус", Emoji.red⟩) :=
  ⟨by decide, analyze_risks_nonactive_high 0 dLiq (by decide)⟩

/-- A record whose `address` key is present but holds a non-dict value
(for example JSON `null`); `analyze_risks` then skips rule 4 entirely. -/
def dNondictAddr : CompanyData :=
  { state_status := some "ACTIVE"
    registration_date := none
    actuality_date := none
    invalid := false
    address := .nondict
    capital := .cdict (some 20000)
    management_name := none
    managers := [] }

/-- C9 counterexample: the claim says every primary record gets an
address factor, but for `dNondictAddr` (address present, not a dict)
`analyze_risks` emits no factor named "Адрес" — only 5 factors in
total. -/
theorem analyze_risks_address_factor_counterexample :
    ((analyze_risks 0 dNondictAddr).2.2.filter (fun f => f.name == "Адрес")) = [] ∧
      (analyze_risks 0 dNondictAddr).2.2.length = 5 := by
  decide

lemma statusRule_not_address (d : CompanyData) :
    ((statusRule d).1.name == "Адрес") = false := by
  rcases statusRule_cases d with h | h <;> rw [h] <;> decide

lemma ageRule_not_address (now : Int) (d : CompanyData) :
    ((ageRule now d).1.name == "Адрес") = false := by
  rcases ageRule_cases now d with h | h | h <;> rw [h] <;> decide

lemma invalidRule_not_address (d : CompanyData) :
    ((invalidRule d).1.name == "Адрес") = false := by
  rcases invalidRule_cases d with h | h <;> rw [h] <;> decide

lemma capitalRule_not_address (d : CompanyData) :
    (capitalRule d).1.toList.filter (fun f => f.name == "Адрес") = [] := by
  rcases capitalRule_cases d with h | h | h <;> rw [h] <;> decide

lemma managerRule_not_address (now : Int) (d : CompanyData) :
    ((managerRule now d).1.name == "Адрес") = false := by
  rcases managerRule_cases now d with h | h <;> rw [h] <;> decide

lemma addressRule_filter (d : CompanyData) :
    (addressRule d).1.toList.filter (fun f => f.name == "Адрес") =
      (match d.address with
       | .nondict => []
       | .absent => [⟨"Адрес", Emoji.green⟩]
       | .adict none => [⟨"Адрес", Emoji.green⟩]
       | .adict (some q) =>
         if q ≠ 0 then [⟨"Адрес", Emoji.yellow⟩] else [⟨"Адрес", Emoji.green⟩]) := by
  cases h : d.address with
  | absent => simp [addressRule, h]
  | nondict => simp [addressRule, h]
  | adict qc =>
    cases qc with
    | none => simp [addressRule, h]
    | some q =>
      simp only [addressRule, h]
      split_ifs <;> simp

/-- C9 (amended): `analyze_risks` emits a warning-tier address factor
when the address field is a dict whose verification code is present and
non-zero, an ok-tier address factor when the address is absent or a
dict without such a code — but no address factor at all when the
address value is present and not a dict (the `isinstance` guard skips
rule 4). -/
theorem analyze_risks_address_factor (now : Int) (d : CompanyData) :
    (analyze_risks now d).2.2.filter (fun f => f.name == "Адрес") =
      (match d.address with
       | .nondict => []
       | .absent => [⟨"Адрес", Emoji.green⟩]
       | .adict none => [⟨"Адрес", Emoji.green⟩]
       | .adict (some q) =>
         if q ≠ 0 then [⟨"Адрес", Emoji.yellow⟩] else [⟨"Адрес", Emoji.green⟩]) := by
  rw [analyze_risks_factors]
  simp only [List.filter_append, List.filter_cons, List.filter_nil,
    statusRule_not_address, ageRule_not_address, invalidRule_not_address,
    managerRule_not_address, capitalRule_not_address, addressRule_filter]
  simp

/-!
### Quota ledger (`src/database.py`, `users` table)

The embedding tracks a single consumer, so the store is an
`Option UserRow`.  Each sqlite statement of the source is one atomic
step on that state.
-/

/-- The quota-relevant columns of one `users` row
(`checks_left INTEGER DEFAULT 3`, `is_premium BOOLEAN DEFAULT 0`,
`src/database.py:22-23`). -/
structure UserRow where
  checks_left : Int
  is_premium : Bool
deriving DecidableEq, Repr

/-- `get_or_create_user` (`src/database.py:99-124`), restricted to the
quota columns: returns the stored row, inserting the schema defaults
`checks_left = 3, is_premium = false` when the consumer has no row
yet. -/
def get_or_create_user : Option UserRow → Option UserRow × UserRow
  | none => (some ⟨3, false⟩, ⟨3, false⟩)
  | some r => (some r, r)

/-- The `UPDATE users SET checks_left = checks_left - 1` statement of
`try_consume_check` (`src/database.py:137`): an unconditional decrement
of whatever the row holds now. -/
def decrementRow : Option UserRow → Option UserRow :=
  Option.map (fun r => { r with checks_left := r.checks_left - 1 })

/-- `try_consume_check` (`src/database.py:127-141`) run sequentially:
read (and possibly create) the row, grant premium users for free,
otherwise grant and decrement when `checks_left > 0`. -/
def try_consume_check (st : Option UserRow) : Option UserRow × Bool :=
  let res := get_or_create_user st
  let user := res.2
  if user.is_premium then (res.1, true)
  else if user.checks_left > 0 then (decrementRow res.1, true)
  else (res.1, false)

/-- Iterate `try_consume_check`, collecting the grant decisions. -/
def consumeRun : Nat → Option UserRow → List Bool × Option UserRow
  | 0, st => ([], st)
  | n + 1, st =>
    let step := try_consume_check st
    let rest := consumeRun n step.1
    (step.2 :: rest.1, rest.2)

/-- C3: a consumer with no row yet (and hence neither premium nor on
the admin allow-list, which `try_consume_check` never consults) gets
exactly 3 successful `try_consume_check` calls — the row is created
with `checks_left = 3` and decremented to 2, 1, 0 — and the 4th call is
refused. -/
theorem try_consume_check_fresh_quota :
    (consumeRun 4 none).1 = [true, true, true, false] ∧
      (consumeRun 1 none).2 = some ⟨2, false⟩ ∧
      (consumeRun 2 none).2 = some ⟨1, false⟩ ∧
      (consumeRun 3 none).2 = some ⟨0, false⟩ ∧
      (consumeRun 4 none).2 = some ⟨0, false⟩ := by
  decide

/-!
### Interleaved executions of `try_consume_check`

The grant check happens on a row read in one sqlite connection
(`get_or_create_user`) and the decrement is a second, unconditional
`UPDATE` in a fresh connection, so a concurrent execution of two calls
consists of four separately-atomic database steps that may interleave.
-/

/-- Progress of one in-flight `try_consume_check` call: not started,
row already read (the decision will use this stale snapshot), or
finished with a grant decision. -/
inductive ThreadPhase
  | start
  | afterRead (user : UserRow)
  | done (granted : Bool)
deriving DecidableEq, Repr

/-- One atomic database step of an in-flight call: the read step is
`get_or_create_user`, the decision-and-write step mirrors the body of
`try_consume_check` but uses the previously read snapshot. -/
def stepThread (db : Option UserRow) : ThreadPhase → Option UserRow × ThreadPhase
  | .start =>
    let res := get_or_create_user db
    (res.1, .afterRead res.2)
  | .afterRead u =>
    if u.is_premium then (db, .done true)
    else if u.checks_left > 0 then (decrementRow db, .done true)
    else (db, .done false)
  | .done b => (db, .done b)

/-- Two concurrent `try_consume_check` calls for the same consumer. -/
structure Conc2 where
  db : Option UserRow
  t1 : ThreadPhase
  t2 : ThreadPhase
deriving DecidableEq, Repr

/-- Run one step of the scheduled thread (`true` = first thread). -/
def schedStep (s : Conc2) : Bool → Conc2
  | true =>
    let r := stepThread s.db s.t1
    { db := r.1, t1 := r.2, t2 := s.t2 }
  | false =>
    let r := stepThread s.db s.t2
    { db := r.1, t1 := s.t1, t2 := r.2 }

/-- Run a whole schedule (list of thread choices). -/
def runSched : List Bool → Conc2 → Conc2
  | [], s => s
  | c :: cs, s => runSched cs (schedStep s c)

/-- C5: evaluation of the interleaving read₁, read₂, write₁, write₂
from a non-premium row with a single check left.  Both calls observe
`checks_left = 1` and both grant, leaving `checks_left = -1`: the check
and the decrement are not one indivisible step, so two grants are
issued where the quota allowed only one. -/
theorem try_consume_check_race :
    runSched [true, false, true, false] ⟨some ⟨1, false⟩, .start, .start⟩ =
      ⟨some ⟨-1, false⟩, .done true, .done true⟩ := by
  decide

/-!
### Usage meter (`src/database.py`, `api_usage` table)

One service is tracked, so the store is an `Option ApiRow`; `today` is
the process-local calendar date string `datetime.now().strftime("%Y-%m-%d")`.
-/

/-- The columns of one `api_usage` row that `increment_api_usage`
reads (`src/database.py:72-82`); `last_alert_sent` is NULL until the
first alert. -/
structure ApiRow where
  total_limit : Int
  used_count : Int
  alert_threshold : Int
  last_alert_sent : Option String
deriving DecidableEq, Repr

/-- The two result keys of `increment_api_usage` that every caller and
both return paths share; the full-path dict also echoes the row fields,
which are presentation only. -/
structure UsageResult where
  remaining : Int
  should_alert : Bool
deriving DecidableEq, Repr

/-- `increment_api_usage` (`src/database.py:290-337`): add `count` to
`used_count` (the `UPDATE` matches no row when the service is
unknown), re-read the row — returning `remaining = 0, should_alert =
False` when there is none — and fire the alert only when the remaining
budget is at most the threshold and no alert was sent today, marking
today in the same branch. -/
def increment_api_usage (today : String) (count : Int) :
    Option ApiRow → Option ApiRow × UsageResult
  | none => (none, ⟨0, false⟩)
  | some r =>
    let r1 : ApiRow := { r with used_count := r.used_count + count }
    let remaining := r1.total_limit - r1.used_count
    if remaining ≤ r1.alert_threshold then
      if r1.last_alert_sent ≠ some today then
        (some { r1 with last_alert_sent := some today }, ⟨remaining, true⟩)
      else (some r1, ⟨remaining, false⟩)
    else (some r1, ⟨remaining, false⟩)

/-- Iterate `increment_api_usage` over a list of counts within one
calendar day, collecting the results. -/
def usageRun (today : String) : List Int → Option ApiRow → List UsageResult × Option ApiRow
  | [], st => ([], st)
  | c :: cs, st =>
    let step := increment_api_usage today c st
    let rest := usageRun today cs step.1
    (step.2 :: rest.1, rest.2)

lemma increment_alert_iff (today : String) (c : Int) (r : ApiRow) :
    (increment_api_usage today c (some r)).2.should_alert = true ↔
      (r.total_limit - (r.used_count + c) ≤ r.alert_threshold ∧
        r.last_alert_sent ≠ some today) := by
  simp only [increment_api_usage]
  split_ifs with h1 h2 <;> simp_all

lemma increment_remaining (today : String) (c : Int) (r : ApiRow) :
    (increment_api_usage today c (some r)).2.remaining =
      r.total_limit - (r.used_count + c) := by
  simp only [increment_api_usage]
  split_ifs <;> rfl

lemma increment_state_true (today : String) (c : Int) (r : ApiRow)
    (h : (increment_api_usage today c (some r)).2.should_alert = true) :
    (increment_api_usage today c (some r)).1 =
      some { r with used_count := r.used_count + c, last_alert_sent := some today } := by
  simp only [increment_api_usage] at h ⊢
  split_ifs at h ⊢
  simp_all

lemma increment_state_false (today : String) (c : Int) (r : ApiRow)
    (h : (increment_api_usage today c (some r)).2.should_alert = false) :
    (increment_api_usage today c (some r)).1 =
      some { r with used_count := r.used_count + c } := by
  simp only [increment_api_usage] at h ⊢
  split_ifs at h ⊢ <;> simp_all

/-- A state in which no further alert can fire today: no row, or a row
already marked with today. -/
def alertSilenced (today : String) : Option ApiRow → Prop
  | none => True
  | some r => r.last_alert_sent = some today

lemma increment_silenced_false (today : String) (c : Int) (r : ApiRow)
    (h : alertSilenced today (some r)) :
    (increment_api_usage today c (some r)).2.should_alert = false := by
  simp only [alertSilenced] at h
  simp only [increment_api_usage]
  split_ifs with h1 h2
  · exact absurd h h2
  · rfl
  · rfl

lemma increment_preserves_silenced (today : String) (c : Int) (st : Option ApiRow)
    (h : alertSilenced today st) :
    alertSilenced today (increment_api_usage today c st).1 := by
  cases st with
  | none => exact trivial
  | some r =>
    have hf := increment_silenced_false today c r h
    rw [increment_state_false today c r hf]
    simp only [alertSilenced] at h ⊢
    exact h

lemma increment_true_silences (today : String) (c : Int) (st : Option ApiRow)
    (h : (increment_api_usage today c st).2.should_alert = true) :
    alertSilenced today (increment_api_usage today c st).1 := by
  cases st with
  | none => simp [increment_api_usage] at h
  | some r =>
    rw [increment_state_true today c r h]
    rfl

lemma usageRun_silenced (today : String) (cnts : List Int) (st : Option ApiRow)
    (h : alertSilenced today st) :
    (usageRun today cnts st).1.countP (fun res => res.should_alert) = 0 := by
  induction cnts generalizing st with
  | nil => rfl
  | cons c cs ih =>
    simp only [usageRun, List.countP_cons]
    cases hst : st with
    | none =>
      have hnone : (increment_api_usage today c none).1 = none := rfl
      have hfalse : (increment_api_usage today c none).2.should_alert = false := rfl
      simp only [hst, hfalse, hnone]
      rw [ih none trivial]
      rfl
    | some r =>
      have hf := increment_silenced_false today c r (hst ▸ h)
      simp only [hst, hf]
      rw [ih _ (increment_preserves_silenced today c (some r) (hst ▸ h))]
      rfl

lemma usageRun_alert_atMostOne (today : String) (cnts : List Int) (st : Option ApiRow) :
    (usageRun today cnts st).1.countP (fun res => res.should_alert) ≤ 1 := by
  induction cnts generalizing st with
  | nil => exact Nat.zero_le 1
  | cons c cs ih =>
    simp only [usageRun, List.countP_cons]
    cases hb : (increment_api_usage today c st).2.should_alert with
    | false =>
      simpa using ih (increment_api_usage today c st).1
    | true =>
      have h0 := usageRun_silenced today cs (increment_api_usage today c st).1
        (increment_true_silences today c st hb)
      simp [h0]

/-- C4: for every service row, every count and every sequence of calls
to `increment_api_usage` on one calendar day: the returned
`should_alert` is true exactly when the post-increment remaining budget
is at most the threshold and the stored last-alert date differs from
today; when it is true the row is marked with today in the same step;
and along any sequence of calls at most one result carries
`should_alert = true`. -/
theorem increment_api_usage_daily_alert (today : String) :
    (∀ (r : ApiRow) (c : Int),
      ((increment_api_usage today c (some r)).2.should_alert = true ↔
        (r.total_limit - (r.used_count + c) ≤ r.alert_threshold ∧
          r.last_alert_sent ≠ some today)) ∧
      (increment_api_usage today c (some r)).2.remaining =
        r.total_limit - (r.used_count + c) ∧
      ((increment_api_usage today c (some r)).2.should_alert = true →
        (increment_api_usage today c (some r)).1 =
          some { r with used_count := r.used_count + c, last_alert_sent := some today })) ∧
    ∀ (cnts : List Int) (st : Option ApiRow),
      (usageRun today cnts st).1.countP (fun res => res.should_alert) ≤ 1 :=
  ⟨fun r c => ⟨increment_alert_iff today c r, increment_remaining today c r,
    increment_state_true today c r⟩,
   fun cnts st => usageRun_alert_atMostOne today cnts st⟩

/-- Witness for C4: a concrete row (limit 10, used 5, threshold 7, no
alert yet) fires the alert on a first increment, and a run of three
increments on one day alerts at most once. -/
theorem increment_api_usage_daily_alert_witness :
    (increment_api_usage "2025-01-01" 1 (some ⟨10, 5, 7, none⟩)).2.should_alert = true ∧
      (usageRun "2025-01-01" [1, 1, 1] (some ⟨10, 5, 7, none⟩)).1.countP
        (fun res => res.should_alert) ≤ 1 := by
  have h := increment_api_usage_daily_alert "2025-01-01"
  exact ⟨((h.1 ⟨10, 5, 7, none⟩ 1).1).mpr (by decide),
    h.2 [1, 1, 1] (some ⟨10, 5, 7, none⟩)⟩

/-- C10: calling `increment_api_usage` for a service with no row in the
`api_usage` table raises nothing (the function is total here), leaves
the store unchanged, and returns `remaining = 0, should_alert =
False`. -/
theorem increment_api_usage_missing_service (today : String) (count : Int) :
    increment_api_usage today count none = (none, ⟨0, false⟩) := rfl

/-!
### Affiliate search (`src/affiliates.py`)

`find_affiliated_companies` is modelled as a pure function of the
parsed name-search response (the `suggestions` list).  The missing-key
and network-error paths of the source return `[]`, which satisfies both
verified bounds trivially.  `String.toLower` models Python `str.lower`
(they agree on ASCII, which all concrete inputs below use), and
whitespace splitting models `str.split()`.
-/

/-- The `management` sub-dict of a suggestion when it is truthy:
`name` via `.get("name", "")`, `post` via `.get("post", ...)`. -/
structure ManagementInfo where
  name : String
  post : Option String
deriving DecidableEq, Repr

/-- The keys of one name-search suggestion that
`find_affiliated_companies` reads; `inn` uses the `""` default of
`data.get("inn", "")`, `management = none` models a falsy
(absent/empty/null) management dict. -/
structure Suggestion where
  value : Option String
  inn : String
  management : Option ManagementInfo
  state_status : Option String
  name_short : Option String
deriving DecidableEq, Repr

/-- One entry of the returned company list
(`src/affiliates.py:66-72`). -/
structure AffiliateCompany where
  name : String
  inn : String
  status : String
  status_emoji : Emoji
  position : String
deriving DecidableEq, Repr

/-- Python truthiness of an optional string (`None` and `""` falsy). -/
def pyTruthyStr : Option String → Bool
  | none => false
  | some s => s ≠ ""

/-- The skip test `if exclude_inn and inn == exclude_inn`
(`src/affiliates.py:53`): nothing is ever skipped when `exclude_inn`
is falsy (`None` or the empty string). -/
def isExcluded (exclude_inn : Option String) (inn : String) : Bool :=
  match exclude_inn with
  | none => false
  | some e => e ≠ "" && inn == e

/-- Python `str.lower`, character by character (exact on ASCII). -/
def pyLower (s : String) : String :=
  String.mk (s.toList.map Char.toLower)

/-- Python `str.split()` with no separator: split on whitespace runs
and drop empty pieces. -/
def pySplit (s : String) : List String :=
  ((s.toList.splitOnP Char.isWhitespace).map (fun cs => String.mk cs)).filter
    (fun p => p ≠ "")

/-- The fuzzy-name test (`src/affiliates.py:61-62`): lower-case and
whitespace-split the queried name, keep tokens longer than 2
characters, and match if any of them is a substring of the lowered
candidate manager name. -/
def isMatchFor (manager_name : String) (manager : String) : Bool :=
  let name_parts := pySplit (pyLower manager_name)
  (name_parts.filter (fun part => part.length > 2)).any
    (fun part => strContains (pyLower manager) part)

/-- The company dict appended for a matching suggestion
(`src/affiliates.py:65-72`). -/
def mkAffiliate (s : Suggestion) : AffiliateCompany :=
  let status := s.state_status.getD "UNKNOWN"
  { name := s.name_short.getD (s.value.getD "Неизвестно")
    inn := s.inn
    status := status
    status_emoji := if status = "ACTIVE" then .green else .red
    position := match s.management with
      | some m => m.post.getD "Руководитель"
      | none => "Связь" }

/-- The suggestion loop of `find_affiliated_companies`
(`src/affiliates.py:48-76`).  `n` is `len(companies)` so far.  An
excluded suggestion hits `continue` and never reaches the
`len(companies) >= limit` break check; after any other suggestion the
loop breaks as soon as the count reaches `limit`. -/
def affiliatesLoop (manager_name : String) (exclude_inn : Option String) (limit : Int) :
    List Suggestion → Nat → List AffiliateCompany
  | [], _ => []
  | s :: rest, n =>
    if isExcluded exclude_inn s.inn then
      affiliatesLoop manager_name exclude_inn limit rest n
    else
      let manager := match s.management with
        | some m => m.name
        | none => ""
      if isMatchFor manager_name manager then
        if limit ≤ ((n + 1 : Nat) : Int) then [mkAffiliate s]
        else mkAffiliate s :: affiliatesLoop manager_name exclude_inn limit rest (n + 1)
      else
        if limit ≤ ((n : Nat) : Int) then []
        else affiliatesLoop manager_name exclude_inn limit rest n

/-- `find_affiliated_companies` (`src/affiliates.py:13-81`) on a parsed
response: run the loop over the suggestions with an empty accumulator. -/
def find_affiliated_companies (manager_name : String) (exclude_inn : Option String)
    (limit : Int) (suggestions : List Suggestion) : List AffiliateCompany :=
  affiliatesLoop manager_name exclude_inn limit suggestions 0

/-- A single matching suggestion whose `data` dict carries no `inn`
key, so `inn` defaults to the empty string. -/
def suggNoInn : Suggestion :=
  { value := some "OOO IVANOV"
    inn := ""
    management := some ⟨"ivanov ivan", none⟩
    state_status := some "ACTIVE"
    name_short := some "OOO IVANOV" }

/-- C7 counterexample: with `excludeTaxId = ""` (falsy, so the skip is
disabled) and `limit = 0`, the returned list contains a company whose
tax ID equals the excluded one, and its length 1 exceeds the limit 0 —
the break fires only after the first append. -/
theorem find_affiliated_companies_counterexample :
    (find_affiliated_companies "ivanov ivan" (some "") 0 [suggNoInn]).map
        (fun c => c.inn) = [""] ∧
      (find_affiliated_companies "ivanov ivan" (some "") 0 [suggNoInn]).length = 1 := by
  decide

lemma affiliatesLoop_length (mname : String) (excl : Option String) (limit : Int) :
    ∀ (suggs : List Suggestion) (n : Nat), (n : Int) < limit →
      ((affiliatesLoop mname excl limit suggs n).length : Int) ≤ limit - n := by
  intro suggs
  induction suggs with
  | nil =>
    intro n hn
    simp only [affiliatesLoop, List.length_nil]
    omega
  | cons s rest ih =>
    intro n hn
    simp only [affiliatesLoop]
    split_ifs with hskip hmatch hbreak hbreak
    · exact le_trans (ih n hn) (by omega)
    · simp only [List.length_singleton]
      omega
    · have hlt : ((n + 1 : Nat) : Int) < limit := by push_cast at hbreak ⊢; omega
      have := ih (n + 1) hlt
      simp only [List.length_cons]
      push_cast at this ⊢
      omega
    · omega
    · exact le_trans (ih n hn) (by omega)

lemma affiliatesLoop_excludes (mname : String) (excl : Option String) (limit : Int) :
    ∀ (suggs : List Suggestion) (n : Nat) (c : AffiliateCompany),
      c ∈ affiliatesLoop mname excl limit suggs n →
      ∀ e, excl = some e → e ≠ "" → c.inn ≠ e := by
  intro suggs
  induction suggs with
  | nil =>
    intro n c hc
    simp [affiliatesLoop] at hc
  | cons s rest ih =>
    intro n c hc e he hne
    have hinn : ∀ hrem : isExcluded excl s.inn = false, s.inn ≠ e := by
      intro hrem
      rw [he] at hrem
      simp only [isExcluded, Bool.and_eq_false_iff] at hrem
      rcases hrem with h | h
      · exact absurd (by simpa using h) hne
      · simpa using h
    simp only [affiliatesLoop] at hc
    split_ifs at hc with hskip hmatch hbreak hbreak
    · exact ih n c hc e he hne
    · have : c = mkAffiliate s := by simpa using hc
      rw [this]
      exact hinn (by simpa using hskip)
    · rcases List.mem_cons.mp hc with h | h
      · rw [h]
        exact hinn (by simpa using hskip)
      · exact ih (n + 1) c h e he hne
    · simp at hc
    · exact ih n c hc e he hne

/-- C7 (amended): for every parsed response, every *non-empty*
`excludeTaxId` and every limit of at least 1, the list returned by
`find_affiliated_companies` contains no company whose tax ID equals
`excludeTaxId` and its length never exceeds the limit.  (A falsy
excluded ID disables the skip, and `limit ≤ 0` still admits one
result, as the counterexample shows.) -/
theorem find_affiliated_companies_bounds (mname : String) (excl : Option String)
    (limit : Int) (suggs : List Suggestion) (hlim : 1 ≤ limit) :
    ((find_affiliated_companies mname excl limit suggs).length : Int) ≤ limit ∧
      ∀ c ∈ find_affiliated_companies mname excl limit suggs,
        ∀ e, excl = some e → e ≠ "" → c.inn ≠ e := by
  constructor
  · have := affiliatesLoop_length mname excl limit suggs 0 (by omega)
    simpa [find_affiliated_companies] using this
  · intro c hc e he hne
    exact affiliatesLoop_excludes mname excl limit suggs 0 c hc e he hne

/-- Witness for the amended C7 at a concrete query: one matching
suggestion, a non-empty excluded ID and limit 10. -/
theorem find_affiliated_companies_bounds_witness :
    (1 : Int) ≤ 10 ∧
      ((find_affiliated_companies "ivanov ivan" (some "7701234567") 10
          [suggNoInn]).length : Int) ≤ 10 :=
  ⟨by decide,
    (find_affiliated_companies_bounds "ivanov ivan" (some "7701234567") 10 [suggNoInn]
      (by decide)).1⟩

/-!
### Enforcement-proceedings client (`src/api_assist.py`)

`get_fssp_by_inn` is modelled on the parsed JSON response.  Monetary
amounts become exact rationals: `pyFloatQ` models CPython `float()` on
plain decimal literals (optional sign, digits, at most one dot), which
is the only shape a parseable amount string takes here; binary float64
rounding is abstracted away, and the distinction the claim is about —
parses versus raises `ValueError` — is `some` versus `none`.
-/

/-- The `sum` key of one debt subject; `none` when the key is absent
(the code then uses the `"0"` default of `subj.get("sum", "0")`). -/
structure FsspSubject where
  sum : Option String
deriving DecidableEq, Repr

/-- One enforcement-proceedings item: only its `subjects` list is read
by the summation. -/
structure FsspItem where
  subjects : List FsspSubject
deriving DecidableEq, Repr

/-- The parsed response of the enforcement registry: the `done` flag
(`none` when absent, as in the `_make_request` error dict), the
`result` item list and the optional `url`/`error` keys. -/
structure FsspResponse where
  done : Option Int
  result : List FsspItem
  url : Option String
  error : Option String
deriving DecidableEq, Repr

/-- The dict returned by `get_fssp_by_inn` (`src/api_assist.py:38` and
`52-58`): `url` is present only on the success path and `error` only on
the failure path. -/
structure FsspReport where
  found : Bool
  total : Nat
  sum : ℚ
  items : List FsspItem
  url : Option String
  error : Option String
deriving DecidableEq, Repr

/-- Value of an unsigned digit run, `none` when a non-digit occurs. -/
def digitsVal (cs : List Char) : Option Nat :=
  if cs.all Char.isDigit then
    some (cs.foldl (fun n c => n * 10 + (c.toNat - 48)) 0)
  else none

/-- Model of CPython `float()` on plain decimal literals: an optional
sign, then digits with at most one dot and at least one digit in total;
anything else raises `ValueError`, i.e. returns `none`. -/
def pyFloatQ (s : String) : Option ℚ :=
  let cs := s.toList
  let signed : ℚ × List Char :=
    match cs with
    | '+' :: rest => (1, rest)
    | '-' :: rest => (-1, rest)
    | _ => (1, cs)
  match signed.2.splitOnP (fun c => c = '.') with
  | [ip] =>
    if ip.isEmpty then none
    else (digitsVal ip).map (fun n => signed.1 * (n : ℚ))
  | [ip, fp] =>
    if ip.isEmpty && fp.isEmpty then none
    else
      match digitsVal ip, digitsVal fp with
      | some i, some f =>
        some (signed.1 * ((i : ℚ) + (f : ℚ) / (10 : ℚ) ^ fp.length))
      | _, _ => none
  | _ => none

/-- `sum_str = subj_sum.replace(" ", "").replace(",", ".")`
(`src/api_assist.py:47`): drop spaces, turn commas into dots. -/
def normalizeSum (s : String) : String :=
  String.mk ((s.toList.filter (fun c => c ≠ ' ')).map (fun c => if c = ',' then '.' else c))

/-- The body of the summation loop (`src/api_assist.py:46-50`): an
empty normalized string adds `0` without parsing; otherwise the parse
result is added, and a `ValueError` (`none`) is swallowed by the bare
`except: pass`, leaving the accumulator unchanged. -/
def fsspAddSubj (total_sum : ℚ) (subj : FsspSubject) : ℚ :=
  let sum_str := normalizeSum (subj.sum.getD "0")
  if sum_str = "" then total_sum + 0
  else
    match pyFloatQ sum_str with
    | some q => total_sum + q
    | none => total_sum

/-- The double loop over `items` and their `subjects`
(`src/api_assist.py:43-50`), starting from `total_sum = 0`. -/
def fsspTotalSum (items : List FsspItem) : ℚ :=
  items.foldl (fun acc item => item.subjects.foldl fsspAddSubj acc) 0

/-- `get_fssp_by_inn` (`src/api_assist.py:30-58`) on a parsed
response. -/
def get_fssp_by_inn (resp : FsspResponse) : FsspReport :=
  if resp.done ≠ some 1 then
    { found := false, total := 0, sum := 0, items := [], url := none, error := resp.error }
  else
    { found := true
      total := resp.result.length
      sum := fsspTotalSum resp.result
      items := resp.result.take 5
      url := some (resp.url.getD "")
      error := none }

/-- What one subject contributes to the total: `0` when its string is
empty or unparseable. -/
def subjValue (subj : FsspSubject) : ℚ :=
  let sum_str := normalizeSum (subj.sum.getD "0")
  if sum_str = "" then 0 else (pyFloatQ sum_str).getD 0

/-- All subjects of a response, in loop order. -/
def allSubjects (resp : FsspResponse) : List FsspSubject :=
  (resp.result.map (fun item => item.subjects)).flatten

lemma fsspAddSubj_eq (acc : ℚ) (subj : FsspSubject) :
    fsspAddSubj acc subj = acc + subjValue subj := by
  simp only [fsspAddSubj, subjValue]
  split_ifs with h
  · rfl
  · cases hq : pyFloatQ (normalizeSum (subj.sum.getD "0")) <;> simp [hq]

lemma fsspSubjFold (subjects : List FsspSubject) (acc : ℚ) :
    subjects.foldl fsspAddSubj acc = acc + (subjects.map subjValue).sum := by
  induction subjects generalizing acc with
  | nil => simp
  | cons subj rest ih =>
    simp only [List.foldl_cons, List.map_cons, List.sum_cons]
    rw [fsspAddSubj_eq, ih]
    ring

lemma fsspItemsFold (items : List FsspItem) (acc : ℚ) :
    items.foldl (fun a item => item.subjects.foldl fsspAddSubj a) acc =
      acc + (((items.map (fun item => item.subjects)).flatten).map subjValue).sum := by
  induction items generalizing acc with
  | nil => simp
  | cons item rest ih =>
    simp only [List.foldl_cons, List.map_cons, List.flatten_cons]
    rw [fsspSubjFold, ih]
    simp only [List.map_append, List.sum_append]
    ring

lemma subjValue_unparseable (subj : FsspSubject)
    (h : pyFloatQ (normalizeSum (subj.sum.getD "0")) = none) : subjValue subj = 0 := by
  simp only [subjValue]
  split_ifs with he
  · rfl
  · rw [h]
    rfl

/-- C8: the total returned by `get_fssp_by_inn` is the sum of the
per-subject contributions (so the summation is total — nothing escapes
the client boundary), every subject whose amount string does not parse
contributes exactly `0`, and when no subject parses the returned total
is `0`. -/
theorem get_fssp_by_inn_sum_tolerant (resp : FsspResponse) :
    ((get_fssp_by_inn resp).sum =
        if resp.done = some 1 then ((allSubjects resp).map subjValue).sum else 0) ∧
      (∀ subj : FsspSubject,
        pyFloatQ (normalizeSum (subj.sum.getD "0")) = none → subjValue subj = 0) ∧
      ((∀ subj ∈ allSubjects resp,
          pyFloatQ (normalizeSum (subj.sum.getD "0")) = none) →
        (get_fssp_by_inn resp).sum = 0) := by
  have hsum : (get_fssp_by_inn resp).sum =
      if resp.done = some 1 then ((allSubjects resp).map subjValue).sum else 0 := by
    by_cases hd : resp.done = some 1
    · simp only [get_fssp_by_inn, hd, if_pos]
      have := fsspItemsFold resp.result 0
      simp only [zero_add] at this
      simp [fsspTotalSum, this, allSubjects]
    · simp [get_fssp_by_inn, hd]
  refine ⟨hsum, fun subj h => subjValue_unparseable subj h, fun hall => ?_⟩
  rw [hsum]
  split_ifs with hd
  · exact List.sum_eq_zero (by
      intro x hx
      rcases List.mem_map.mp hx with ⟨subj, hmem, rfl⟩
      exact subjValue_unparseable subj (hall subj hmem))
  · rfl

/-- A response whose every amount string fails to parse. -/
def respBadSums : FsspResponse :=
  { done := some 1
    result := [⟨[⟨some "N/A"⟩, ⟨some "12.34.56"⟩]⟩, ⟨[⟨some "--"⟩]⟩]
    url := some "http://fssp.example/x"
    error := none }

/-- Witness for C8: on `respBadSums` every amount is unparseable and
the returned total is `0`. -/
theorem get_fssp_by_inn_sum_tolerant_witness :
    (∀ subj ∈ allSubjects respBadSums,
        pyFloatQ (normalizeSum (subj.sum.getD "0")) = none) ∧
      (get_fssp_by_inn respBadSums).sum = 0 :=
  ⟨by decide, (get_fssp_by_inn_sum_tolerant respBadSums).2.2 (by decide)⟩

/-!
### Evaluation pipeline effects (`src/main.py`, `src/api_assist.py`)

For the metering claim only the *sequence of side-effecting calls* of a
granted `check_company` evaluation matters, so that sequence is
embedded as data, read off the source line by line.
-/

/-- The side-effecting calls reachable from `check_company`. -/
inductive Effect
  | tryConsumeCheck
  | getOrCreateUser
  | dadataFindById
  | addCheckHistory
  | affiliatesSuggest
  | fsspSearch
  | nalogOrgSearch
  | arbitrSearch
  | disqualifiedSearch
  | incrementApiUsage
deriving DecidableEq, Repr

/-- The external registry queries issued by `check_company_extended`
(`src/api_assist.py:266-282`): enforcement, tax registry and
arbitration always; the disqualification lookup only for a truthy
director name that is not the placeholder. -/
def check_company_extended_calls (hasDirector : Bool) : List Effect :=
  [.fsspSearch, .nalogOrgSearch, .arbitrSearch] ++
    (if hasDirector then [.disqualifiedSearch] else [])

/-- The calls of a granted `check_company` evaluation
(`src/main.py:495-588`), in source order: the quota consumption
(skipped for admins by short-circuit), the user upsert, the DaData
lookup; then, when a record was found, the history insert, the
affiliate search made inside `format_risk_report`
(`src/risk_analyzer.py:236`), the second affiliate search of
`src/main.py:549`, and the extended registry checks.  `hasMgr` is the
truthiness of the record's management name. -/
def check_company_trace (admin found hasMgr : Bool) : List Effect :=
  (if admin then [] else [.tryConsumeCheck]) ++
    [.getOrCreateUser, .dadataFindById] ++
    (if found then
      [.addCheckHistory] ++
        (if hasMgr then [.affiliatesSuggest] else []) ++
        (if hasMgr then [.affiliatesSuggest] else []) ++
        check_company_extended_calls hasMgr
    else [])

/-- The calls that go out to an external, budget-consuming service. -/
def isExternalCall : Effect → Bool
  | .dadataFindById => true
  | .affiliatesSuggest => true
  | .fsspSearch => true
  | .nalogOrgSearch => true
  | .arbitrSearch => true
  | .disqualifiedSearch => true
  | _ => false

/-- Calls into the usage meter. -/
def isMeterIncrement : Effect → Bool
  | .incrementApiUsage => true
  | _ => false

/-- C6 (evaluated at the failing inputs): every granted `check_company`
evaluation issues at least one metered external call, yet the trace
contains not a single `increment_api_usage` call — `src/main.py`
imports it and never invokes it — so the usage counter is not
incremented once per external call as claimed. -/
theorem check_company_no_usage_metering (admin found hasMgr : Bool) :
    (check_company_trace admin found hasMgr).countP isMeterIncrement = 0 ∧
      1 ≤ (check_company_trace admin found hasMgr).countP isExternalCall := by
  cases admin <;> cases found <;> cases hasMgr <;> exact (by decide)

end ContragentBot
